import Mathlib

/-!
Verification development for the folder-comparison core of
vscode-compare-folders (src/services/comparer.ts and package.json).

The embedding mirrors the TypeScript source. External collaborators
(the dir-compare library, the VSCode configuration store, the extension
modules ignoreExtensionTools and configuration that are outside the
comparer source) are modelled from the specification where the source
does not contain them; each such definition carries a doc comment
beginning with Modelled from the spec.
-/

namespace CompareFolders

/-- Kind of a file-system entry in a dir-compare Difference record
(type1 and type2 fields); missing stands for the absent side. -/
inductive EntryType
  | file
  | directory
  | missing
deriving DecidableEq, Repr

/-- State of a dir-compare Difference record: distinct, left, right or
equal, as consumed by compareFolders (comparer.ts lines 125-142). -/
inductive DiffState
  | distinct
  | left
  | right
  | equal
deriving DecidableEq, Repr

/-- One dir-compare Difference record, with the fields compareFolders
reads: state, path1, name1, path2, name2, type1, type2. In TypeScript
the path and name fields are optional and asserted non-null at use
sites; the embedding makes them total since only the sides actually
used by each branch are read. -/
structure Diff where
  state : DiffState
  path1 : String
  name1 : String
  path2 : String
  name2 : String
  type1 : EntryType
  type2 : EntryType
deriving DecidableEq, Repr

/-- Node path.join as used in comparer.ts to build an absolute file
path from a Difference parent path and base name. -/
def pathJoin (p n : String) : String := p ++ "/" ++ n

/-- The configuration snapshot for one run, with the fields consumed by
getOptions and compareFolders. Defaults come from package.json
(contributes.configuration): every boolean option and ignoreExtension
declare a default there; includeFilter and excludeFilter declare no
default, so an unset value reaches the code as undefined, embedded as
none. -/
structure Configuration where
  compareContent : Bool
  excludeFilter : Option (List String)
  includeFilter : Option (List String)
  ignoreFileNameCase : Bool
  ignoreExtension : List (List String)
  ignoreWhiteSpaces : Bool
  ignoreAllWhiteSpaces : Bool
  ignoreEmptyLines : Bool
  ignoreLineEnding : Bool
  showIdentical : Bool
deriving DecidableEq, Repr

/-- The default configuration, field for field from the defaults
declared in package.json; includeFilter and excludeFilter have no
declared default and are therefore unset. -/
def defaultConfiguration : Configuration where
  compareContent := true
  excludeFilter := none
  includeFilter := none
  ignoreFileNameCase := true
  ignoreExtension := []
  ignoreWhiteSpaces := false
  ignoreAllWhiteSpaces := false
  ignoreEmptyLines := false
  ignoreLineEnding := false
  showIdentical := false

/-- The CompreOptions record built by getOptions (comparer.ts lines
91-104), restricted to the data-carrying fields; the two function
fields compareFileAsync and compareNameHandler are constants of the
source and carry no per-run data needed by the claims. -/
structure CompreOptions where
  compareContent : Bool
  excludeFilter : Option String
  includeFilter : Option String
  ignoreCase : Bool
  ignoreExtension : List (List String)
  ignoreWhiteSpaces : Bool
  ignoreAllWhiteSpaces : Bool
  ignoreEmptyLines : Bool
  ignoreLineEnding : Bool
deriving DecidableEq, Repr

/-- getOptions (comparer.ts lines 68-105): reads the configuration
snapshot and builds CompreOptions. The ternary
excludeFilter ? excludeFilter.join(sep) : undefined maps an unset
filter to undefined and a set one (even the empty array, which is
truthy in JavaScript) to the comma-joined string; same for
includeFilter. -/
def getOptions (c : Configuration) : CompreOptions where
  compareContent := c.compareContent
  excludeFilter := c.excludeFilter.map (String.intercalate ",")
  includeFilter := c.includeFilter.map (String.intercalate ",")
  ignoreCase := c.ignoreFileNameCase
  ignoreExtension := c.ignoreExtension
  ignoreWhiteSpaces := c.ignoreWhiteSpaces
  ignoreAllWhiteSpaces := c.ignoreAllWhiteSpaces
  ignoreEmptyLines := c.ignoreEmptyLines
  ignoreLineEnding := c.ignoreLineEnding

/-- The option object built at comparer.ts line 117 by the object
spread composing a literal with compareContent true and then every
field of options. Since the options literal declares every field, each
of its fields overrides the base, so the user value of compareContent
wins over the literal true. -/
def concatenatedOptions (o : CompreOptions) : CompreOptions where
  compareContent := o.compareContent
  excludeFilter := o.excludeFilter
  includeFilter := o.includeFilter
  ignoreCase := o.ignoreCase
  ignoreExtension := o.ignoreExtension
  ignoreWhiteSpaces := o.ignoreWhiteSpaces
  ignoreAllWhiteSpaces := o.ignoreAllWhiteSpaces
  ignoreEmptyLines := o.ignoreEmptyLines
  ignoreLineEnding := o.ignoreLineEnding

/-- The CompareResult class (comparer.ts lines 152-167): four
partitions of path lists plus the two root paths. -/
structure CompareResult where
  distinct : List (List String)
  left : List (List String)
  right : List (List String)
  identicals : List (List String)
  leftPath : String
  rightPath : String
deriving DecidableEq, Repr

/-- JavaScript logical or on numbers: returns the first operand when it
is truthy (non-zero), otherwise the second. -/
def jsOr (a b : Nat) : Nat := if a = 0 then b else a

/-- hasResult (comparer.ts lines 164-166): the JavaScript expression
distinct.length or left.length or right.length, returning a number
that callers use for its truthiness. -/
def CompareResult.hasResult (r : CompareResult) : Nat :=
  jsOr r.distinct.length (jsOr r.left.length r.right.length)

/-- Filter predicate of the distinct partition (comparer.ts line 126):
state is distinct; no entry-kind check is performed on this branch. -/
def inDistinct (d : Diff) : Bool := d.state = DiffState.distinct

/-- Filter predicate of the left partition (comparer.ts line 131):
state is left and the left entry is a file. -/
def inLeft (d : Diff) : Bool :=
  d.state = DiffState.left && d.type1 = EntryType.file

/-- Filter predicate of the right partition (comparer.ts line 135):
state is right and the right entry is a file. -/
def inRight (d : Diff) : Bool :=
  d.state = DiffState.right && d.type2 = EntryType.file

/-- Filter predicate of the identicals partition (comparer.ts line
140): state is equal and the left entry is a file. -/
def inEqual (d : Diff) : Bool :=
  d.state = DiffState.equal && d.type1 = EntryType.file

/-- Mapping of a distinct Difference to its pair of joined paths
(comparer.ts line 127). -/
def pairPaths (d : Diff) : List String :=
  [pathJoin d.path1 d.name1, pathJoin d.path2 d.name2]

/-- Mapping of a left-side Difference to its singleton joined path
(comparer.ts lines 132 and 141). -/
def leftPathOf (d : Diff) : List String := [pathJoin d.path1 d.name1]

/-- Mapping of a right-side Difference to its singleton joined path
(comparer.ts line 136). -/
def rightPathOf (d : Diff) : List String := [pathJoin d.path2 d.name2]

/-- The partition-building body of compareFolders (comparer.ts lines
122-144): filter the diffSet four ways and map to path lists; the
identicals partition is computed only when showIdentical is set. -/
def buildResult (showIdentical : Bool) (folder1Path folder2Path : String)
    (diffSet : List Diff) : CompareResult where
  distinct := (diffSet.filter inDistinct).map pairPaths
  left := (diffSet.filter inLeft).map leftPathOf
  right := (diffSet.filter inRight).map rightPathOf
  identicals :=
    if showIdentical then (diffSet.filter inEqual).map leftPathOf else []
  leftPath := folder1Path
  rightPath := folder2Path

/-- emptyResponse (comparer.ts line 108): the CompareResult with all
four partitions empty and empty root paths. -/
def emptyResponse : CompareResult where
  distinct := []
  left := []
  right := []
  identicals := []
  leftPath := ""
  rightPath := ""

/-- Modelled from the spec: validate from ignoreExtensionTools, a
module of this repository outside the comparer source. Spec sections
4.1 and 7: every extension value appears in at most one declared pair;
a duplicate across the configured set is a configuration error. -/
def validate (pairs : List (List String)) : Bool := pairs.flatten.Nodup

/-- Observable outcome of one compareFolders run: the returned
CompareResult together with whether the external compare call (the
tree walk and its file I/O) was reached, and whether the catch block
logged and surfaced an error (comparer.ts lines 146-147). -/
structure SessionOutcome where
  result : CompareResult
  compareInvoked : Bool
  errorLogged : Bool
  errorSurfaced : Bool
deriving DecidableEq, Repr

/-- compareFolders (comparer.ts lines 107-150). The ambient inputs are
made explicit: the configuration snapshot, the two paths from
pathContext, and the outcome of the external compare call. If
validation fails the function returns emptyResponse before the compare
call; if the compare call throws, the catch block logs, surfaces the
error and returns emptyResponse; otherwise the partitions are built
from the diffSet. -/
def compareFolders (cfg : Configuration) (folder1Path folder2Path : String)
    (outcome : Except String (Option (List Diff))) : SessionOutcome :=
  if !validate cfg.ignoreExtension then
    { result := emptyResponse
      compareInvoked := false
      errorLogged := false
      errorSurfaced := false }
  else
    match outcome with
    | Except.error _ =>
      { result := emptyResponse
        compareInvoked := true
        errorLogged := true
        errorSurfaced := true }
    | Except.ok diffSet? =>
      { result :=
          buildResult cfg.showIdentical folder1Path folder2Path
            (diffSet?.getD [])
        compareInvoked := true
        errorLogged := false
        errorSurfaced := false }

/-- Lower-case fold of a name, character by character. -/
def foldLower (s : String) : String := String.mk (s.toList.map Char.toLower)

/-- Splits a file name into stem and extension at the last dot; a name
without a dot has itself as stem and an empty extension. Helper for the
spec-modelled name matcher. -/
def splitExt (name : String) : String × String :=
  let rev := name.toList.reverse
  let extRev := rev.takeWhile (fun c => c ≠ '.')
  if extRev.length = rev.length then (name, "")
  else
    (String.mk ((rev.drop (extRev.length + 1)).reverse),
     String.mk extRev.reverse)

/-- Modelled from the spec: the NameMatcher contract of section 4.1,
implemented in the repository by compareName in ignoreExtensionTools
(outside the comparer source) together with the dir-compare name
matching. Two names match when their stems are equal (case-folded when
ignoreFileNameCase is set) and either the extensions are identical or
the extension pair appears in the declared equivalence set in either
order. -/
def nameMatches (ignoreCase : Bool) (pairs : List (List String))
    (a b : String) : Bool :=
  let sa := splitExt a
  let sb := splitExt b
  let fold := fun s => if ignoreCase then foldLower s else s
  fold sa.1 = fold sb.1 &&
    (sa.2 = sb.2 || pairs.any (fun p => p = [sa.2, sb.2] || p = [sb.2, sa.2]))

/-- Modelled from the spec: the Classifier rule of sections 4.2 and 4.4
for a matched file pair, implemented by the external dir-compare
library. When content comparison is disabled the content-equivalence
component is not invoked and equivalence is presence-only, so the pair
is equal; when enabled, the pair is equal exactly when the
content-equivalence oracle accepts it. The oracle is a parameter so
that independence from it expresses that no content check happens. -/
def classifyMatched (compareContent : Bool)
    (contentEquivalent : String → String → Bool)
    (leftFile rightFile : String) : DiffState :=
  if compareContent then
    if contentEquivalent leftFile rightFile then DiffState.equal
    else DiffState.distinct
  else DiffState.equal

/-- Modelled from the spec: well-formedness of a dir-compare Difference
record, from sections 4.1 (a file never matches a directory, so a
matched pair joins entries of one kind) and 4.4 (only file pairs are
escalated to the Classifier, which alone assigns distinct). Hence a
distinct record always joins two files. -/
def DiffWF (d : Diff) : Prop :=
  d.state = DiffState.distinct →
    d.type1 = EntryType.file ∧ d.type2 = EntryType.file

instance (d : Diff) : Decidable (DiffWF d) :=
  inferInstanceAs (Decidable (d.state = DiffState.distinct →
    d.type1 = EntryType.file ∧ d.type2 = EntryType.file))

/-- A Difference record describes a file pair present in at least one
tree: the entry is a file on each side where it is present (on the one
present side for left and right states, and on the left side, whose
kind a matched pair shares, for distinct and equal states). -/
def isFilePair (d : Diff) : Bool :=
  match d.state with
  | DiffState.left => d.type1 = EntryType.file
  | DiffState.right => d.type2 = EntryType.file
  | DiffState.distinct => d.type1 = EntryType.file
  | DiffState.equal => d.type1 = EntryType.file

/-- Number of partitions of the built result that a given Difference
record is emitted into, for a given showIdentical setting. -/
def partCount (showIdentical : Bool) (d : Diff) : Nat :=
  (if inDistinct d then 1 else 0) + (if inLeft d then 1 else 0) +
    (if inRight d then 1 else 0) +
    (if showIdentical && inEqual d then 1 else 0)

/-- jsOr is zero exactly when both operands are zero. -/
lemma jsOr_eq_zero (a b : Nat) : jsOr a b = 0 ↔ a = 0 ∧ b = 0 := by
  unfold jsOr
  split <;> simp_all

/-- Sample Difference records used by concrete witnesses. -/
def dLeftFile : Diff :=
  Diff.mk DiffState.left "L" "a.txt" "" "" EntryType.file EntryType.missing

def dEqualFile : Diff :=
  Diff.mk DiffState.equal "L" "a.txt" "R" "a.txt" EntryType.file EntryType.file

def dDistinctFile : Diff :=
  Diff.mk DiffState.distinct "L" "a.txt" "R" "a.txt" EntryType.file EntryType.file

/-- A configuration whose extension pairs repeat the extension ts, so
extension-pair validation fails. -/
def dupExtConfiguration : Configuration :=
  { defaultConfiguration with
      ignoreExtension := [["js", "ts"], ["ts", "coffee"]] }

/-- C2: if the external compare call throws during walking or
classification, compareFolders catches the error at the session
boundary, logs it, surfaces it, and returns a CompareResult with all
four partitions empty, never a partial result. -/
theorem c2_error_boundary (cfg : Configuration) (p1 p2 e : String)
    (h : validate cfg.ignoreExtension = true) :
    (compareFolders cfg p1 p2 (Except.error e)).result.distinct = [] ∧
    (compareFolders cfg p1 p2 (Except.error e)).result.left = [] ∧
    (compareFolders cfg p1 p2 (Except.error e)).result.right = [] ∧
    (compareFolders cfg p1 p2 (Except.error e)).result.identicals = [] ∧
    (compareFolders cfg p1 p2 (Except.error e)).errorLogged = true ∧
    (compareFolders cfg p1 p2 (Except.error e)).errorSurfaced = true := by
  simp [compareFolders, h, emptyResponse]

/-- Witness for C2 at the default configuration and a concrete error. -/
theorem c2_error_boundary_witness :
    (compareFolders defaultConfiguration "L" "R"
        (Except.error "EACCES")).result.distinct = [] ∧
    (compareFolders defaultConfiguration "L" "R"
        (Except.error "EACCES")).errorLogged = true :=
  ⟨(c2_error_boundary defaultConfiguration "L" "R" "EACCES" (by decide)).1,
   (c2_error_boundary defaultConfiguration "L" "R" "EACCES"
      (by decide)).2.2.2.2.1⟩

/-- C3: when extension-pair validation fails, compareFolders returns
the empty result and the external compare call, hence any tree walk or
file I/O, is never reached. -/
theorem c3_validation_failfast (cfg : Configuration) (p1 p2 : String)
    (outcome : Except String (Option (List Diff)))
    (h : validate cfg.ignoreExtension = false) :
    (compareFolders cfg p1 p2 outcome).result = emptyResponse ∧
    (compareFolders cfg p1 p2 outcome).compareInvoked = false := by
  simp [compareFolders, h]

/-- Witness for C3 at a configuration where the extension ts appears in
two declared pairs. -/
theorem c3_validation_failfast_witness :
    (compareFolders dupExtConfiguration "L" "R"
        (Except.ok (some [dEqualFile]))).result = emptyResponse ∧
    (compareFolders dupExtConfiguration "L" "R"
        (Except.ok (some [dEqualFile]))).compareInvoked = false :=
  c3_validation_failfast dupExtConfiguration "L" "R"
    (Except.ok (some [dEqualFile])) (by decide)

/-- C8: two compareFolders runs with the same configuration, the same
root paths and the same outcome of the underlying compare dependency
produce CompareResults with identical membership in all four
partitions and identical recorded root paths. -/
theorem c8_deterministic (cfg cfg2 : Configuration) (p1 p2 q1 q2 : String)
    (o1 o2 : Except String (Option (List Diff)))
    (hc : cfg = cfg2) (h1 : p1 = q1) (h2 : p2 = q2) (ho : o1 = o2) :
    (compareFolders cfg p1 p2 o1).result.distinct =
      (compareFolders cfg2 q1 q2 o2).result.distinct ∧
    (compareFolders cfg p1 p2 o1).result.left =
      (compareFolders cfg2 q1 q2 o2).result.left ∧
    (compareFolders cfg p1 p2 o1).result.right =
      (compareFolders cfg2 q1 q2 o2).result.right ∧
    (compareFolders cfg p1 p2 o1).result.identicals =
      (compareFolders cfg2 q1 q2 o2).result.identicals ∧
    (compareFolders cfg p1 p2 o1).result.leftPath =
      (compareFolders cfg2 q1 q2 o2).result.leftPath ∧
    (compareFolders cfg p1 p2 o1).result.rightPath =
      (compareFolders cfg2 q1 q2 o2).result.rightPath := by
  subst hc h1 h2 ho
  exact ⟨rfl, rfl, rfl, rfl, rfl, rfl⟩

/-- Witness for C8 at concrete equal inputs. -/
theorem c8_deterministic_witness :
    (compareFolders defaultConfiguration "L" "R"
        (Except.ok (some [dLeftFile]))).result.left =
      (compareFolders defaultConfiguration "L" "R"
        (Except.ok (some [dLeftFile]))).result.left :=
  (c8_deterministic defaultConfiguration defaultConfiguration "L" "R" "L" "R"
    (Except.ok (some [dLeftFile])) (Except.ok (some [dLeftFile]))
    rfl rfl rfl rfl).2.1

/-- C9: hasResult is truthy exactly when one of the distinct, left or
right partitions is non-empty; a result whose only non-empty partition
is identicals reports a falsy hasResult. -/
theorem c9_hasResult (r : CompareResult) :
    (r.hasResult ≠ 0 ↔ (r.distinct ≠ [] ∨ r.left ≠ [] ∨ r.right ≠ [])) ∧
    (r.distinct = [] → r.left = [] → r.right = [] → r.hasResult = 0) := by
  constructor
  · rw [not_iff_comm]
    push_neg
    simp [CompareResult.hasResult, jsOr_eq_zero, List.length_eq_zero,
      and_assoc]
  · intro h1 h2 h3
    simp [CompareResult.hasResult, jsOr_eq_zero, h1, h2, h3]

/-- Witness for C9: a result whose only non-empty partition is
identicals has hasResult zero. -/
theorem c9_hasResult_witness :
    (CompareResult.mk [] [] [] [["L/a.txt"]] "L" "R").hasResult = 0 :=
  (c9_hasResult (CompareResult.mk [] [] [] [["L/a.txt"]] "L" "R")).2
    rfl rfl rfl

/-- C10: whenever compareFolders returns the empty result, on
validation failure or on a caught error, the leftPath and rightPath of
the returned CompareResult are the empty string rather than the
supplied root paths. -/
theorem c10_empty_paths (cfg : Configuration) (p1 p2 e : String)
    (outcome : Except String (Option (List Diff))) :
    (validate cfg.ignoreExtension = false →
      (compareFolders cfg p1 p2 outcome).result.leftPath = "" ∧
      (compareFolders cfg p1 p2 outcome).result.rightPath = "") ∧
    ((compareFolders cfg p1 p2 (Except.error e)).result.leftPath = "" ∧
     (compareFolders cfg p1 p2 (Except.error e)).result.rightPath = "") := by
  constructor
  · intro h
    simp [compareFolders, h, emptyResponse]
  · by_cases hv : validate cfg.ignoreExtension <;>
      simp [compareFolders, hv, emptyResponse]

/-- Witness for C10 at a duplicate-extension configuration and at a
concrete error, with non-empty supplied root paths. -/
theorem c10_empty_paths_witness :
    (compareFolders dupExtConfiguration "L" "R"
        (Except.ok (some [dLeftFile]))).result.leftPath = "" ∧
    (compareFolders defaultConfiguration "L" "R"
        (Except.error "EACCES")).result.rightPath = "" :=
  ⟨((c10_empty_paths dupExtConfiguration "L" "R" "e"
      (Except.ok (some [dLeftFile]))).1 (by decide)).1,
   (c10_empty_paths defaultConfiguration "L" "R" "EACCES"
      (Except.ok (some []))).2.2⟩

/-- C1 counterexample: with showIdentical false, an identical file pair
present in both trees appears in none of the distinct, left and right
partitions, not in exactly one of them as the claim states. -/
theorem c1_counterexample :
    isFilePair dEqualFile = true ∧
    (buildResult false "L" "R" [dEqualFile]).distinct = [] ∧
    (buildResult false "L" "R" [dEqualFile]).left = [] ∧
    (buildResult false "L" "R" [dEqualFile]).right = [] ∧
    (buildResult false "L" "R" [dEqualFile]).identicals = [] := by
  decide

/-- C1 amended: the four partitions are pairwise disjoint, each being
the image of its filter over the diffSet; with showIdentical true every
file pair lands in exactly one partition; with showIdentical false
every non-identical file pair lands in exactly one of distinct, left
and right, and an identical pair is omitted from all partitions. -/
theorem c1_partition_exactly_one (ds : List Diff) (sI : Bool)
    (p1 p2 : String) :
    ((buildResult sI p1 p2 ds).distinct =
        (ds.filter inDistinct).map pairPaths ∧
     (buildResult sI p1 p2 ds).left = (ds.filter inLeft).map leftPathOf ∧
     (buildResult sI p1 p2 ds).right =
        (ds.filter inRight).map rightPathOf ∧
     (buildResult sI p1 p2 ds).identicals =
        if sI then (ds.filter inEqual).map leftPathOf else []) ∧
    (∀ d : Diff, partCount sI d ≤ 1) ∧
    (∀ d : Diff, isFilePair d = true →
      (sI = true → partCount true d = 1) ∧
      (sI = false →
        (d.state = DiffState.equal → partCount false d = 0) ∧
        (d.state ≠ DiffState.equal → partCount false d = 1))) := by
  refine ⟨⟨rfl, rfl, rfl, rfl⟩, ?_, ?_⟩
  · intro d
    rcases d with ⟨st, q1, n1, q2, n2, t1, t2⟩
    cases st <;> cases t1 <;> cases t2 <;> cases sI <;>
      simp [partCount, inDistinct, inLeft, inRight, inEqual]
  · intro d hd
    rcases d with ⟨st, q1, n1, q2, n2, t1, t2⟩
    cases st <;> cases t1 <;> cases t2 <;>
      simp_all [partCount, inDistinct, inLeft, inRight, inEqual, isFilePair]

/-- Witness for C1 amended: a left-only file lands in exactly one
partition with showIdentical true, and an identical file pair lands in
no partition with showIdentical false. -/
theorem c1_partition_exactly_one_witness :
    partCount true dLeftFile = 1 ∧ partCount false dEqualFile = 0 :=
  ⟨((c1_partition_exactly_one [] true "L" "R").2.2 dLeftFile
      (by decide)).1 rfl,
   (((c1_partition_exactly_one [] false "L" "R").2.2 dEqualFile
      (by decide)).2 rfl).1 rfl⟩

/-- Membership in the mapped equal-file filter, phrased over the
Difference records it comes from. -/
lemma mem_filterEqual_map (ds : List Diff) (x : List String) :
    x ∈ (ds.filter inEqual).map leftPathOf ↔
      ∃ d ∈ ds, d.state = DiffState.equal ∧ d.type1 = EntryType.file ∧
        x = leftPathOf d := by
  constructor
  · intro hx
    rcases List.mem_map.mp hx with ⟨d, hd, hdx⟩
    rcases List.mem_filter.mp hd with ⟨hdm, hdf⟩
    have h2 : d.state = DiffState.equal ∧ d.type1 = EntryType.file := by
      simpa [inEqual] using hdf
    exact ⟨d, hdm, h2.1, h2.2, hdx.symm⟩
  · rintro ⟨d, hdm, h1, h2, hx⟩
    exact List.mem_map.mpr
      ⟨d, List.mem_filter.mpr ⟨hdm, by simp [inEqual, h1, h2]⟩, hx.symm⟩

/-- C4: the identicals partition is non-empty only when showIdentical
is set; it is empty when showIdentical is false, and when showIdentical
is true it holds exactly the paths of the diffSet records that are
equal file pairs. -/
theorem c4_identicals (cfg : Configuration) (p1 p2 : String)
    (ds : List Diff) (hv : validate cfg.ignoreExtension = true) :
    ((compareFolders cfg p1 p2
        (Except.ok (some ds))).result.identicals ≠ [] →
      cfg.showIdentical = true) ∧
    (cfg.showIdentical = false →
      (compareFolders cfg p1 p2
        (Except.ok (some ds))).result.identicals = []) ∧
    (cfg.showIdentical = true →
      ∀ x, x ∈ (compareFolders cfg p1 p2
          (Except.ok (some ds))).result.identicals ↔
        ∃ d ∈ ds, d.state = DiffState.equal ∧ d.type1 = EntryType.file ∧
          x = leftPathOf d) := by
  have hres : (compareFolders cfg p1 p2 (Except.ok (some ds))).result =
      buildResult cfg.showIdentical p1 p2 ds := by
    simp [compareFolders, hv]
  rw [hres]
  cases hs : cfg.showIdentical with
  | false => simp [buildResult]
  | true =>
    refine ⟨fun _ => rfl, fun h => Bool.noConfusion h, fun _ x => ?_⟩
    have hb : (buildResult true p1 p2 ds).identicals =
        (ds.filter inEqual).map leftPathOf := rfl
    rw [hb]
    exact mem_filterEqual_map ds x

/-- Witness for C4: with showIdentical true, the path of an equal file
pair is a member of the identicals partition of the run. -/
theorem c4_identicals_witness :
    leftPathOf dEqualFile ∈
      (compareFolders
        { defaultConfiguration with showIdentical := true } "L" "R"
        (Except.ok (some [dEqualFile]))).result.identicals :=
  ((c4_identicals { defaultConfiguration with showIdentical := true }
      "L" "R" [dEqualFile] (by decide)).2.2 rfl
    (leftPathOf dEqualFile)).mpr
    ⟨dEqualFile, by simp, rfl, rfl, rfl⟩

/-- The left entry of a Difference record is a file. -/
def isFile1 (d : Diff) : Bool := d.type1 = EntryType.file

/-- The right entry of a Difference record is a file. -/
def isFile2 (d : Diff) : Bool := d.type2 = EntryType.file

/-- A matched directory pair, as dir-compare reports inside a walked
tree; used by concrete witnesses. -/
def dDirEqual : Diff :=
  Diff.mk DiffState.equal "L" "sub" "R" "sub"
    EntryType.directory EntryType.directory

/-- C5: under the spec-modelled well-formedness of the diffSet, every
partition of the built result equals the image of a filter that
demands the file kind on each present side, so every emitted path
refers to a file entry: the left, right and identicals filters check
the kind in the source, and a distinct record joins two files by
well-formedness. -/
theorem c5_files_only (sI : Bool) (p1 p2 : String) (ds : List Diff)
    (hWF : ∀ d ∈ ds, DiffWF d) :
    (buildResult sI p1 p2 ds).distinct =
      (ds.filter (fun d => inDistinct d && (isFile1 d && isFile2 d))).map
        pairPaths ∧
    (buildResult sI p1 p2 ds).left =
      (ds.filter (fun d => inLeft d && isFile1 d)).map leftPathOf ∧
    (buildResult sI p1 p2 ds).right =
      (ds.filter (fun d => inRight d && isFile2 d)).map rightPathOf ∧
    (buildResult sI p1 p2 ds).identicals =
      (if sI then
        (ds.filter (fun d => inEqual d && isFile1 d)).map leftPathOf
       else []) := by
  have hdis : ∀ d ∈ ds,
      inDistinct d = (inDistinct d && (isFile1 d && isFile2 d)) := by
    intro d hd
    by_cases h : d.state = DiffState.distinct
    · obtain ⟨h1, h2⟩ := hWF d hd h
      simp [inDistinct, isFile1, isFile2, h, h1, h2]
    · simp [inDistinct, h]
  have hl : ∀ d ∈ ds, inLeft d = (inLeft d && isFile1 d) := by
    intro d _
    simp only [inLeft, isFile1, Bool.and_assoc, Bool.and_self]
  have hr : ∀ d ∈ ds, inRight d = (inRight d && isFile2 d) := by
    intro d _
    simp only [inRight, isFile2, Bool.and_assoc, Bool.and_self]
  have he : ∀ d ∈ ds, inEqual d = (inEqual d && isFile1 d) := by
    intro d _
    simp only [inEqual, isFile1, Bool.and_assoc, Bool.and_self]
  refine ⟨?_, ?_, ?_, ?_⟩
  · show (ds.filter inDistinct).map pairPaths = _
    rw [List.filter_congr hdis]
  · show (ds.filter inLeft).map leftPathOf = _
    rw [List.filter_congr hl]
  · show (ds.filter inRight).map rightPathOf = _
    rw [List.filter_congr hr]
  · show (if sI then (ds.filter inEqual).map leftPathOf else []) = _
    rw [List.filter_congr he]

/-- Witness for C5 at a diffSet holding a distinct file pair and a
matched directory pair. -/
theorem c5_files_only_witness :
    (buildResult true "L" "R" [dDistinctFile, dDirEqual]).distinct =
      ([dDistinctFile, dDirEqual].filter
        (fun d => inDistinct d && (isFile1 d && isFile2 d))).map
        pairPaths :=
  (c5_files_only true "L" "R" [dDistinctFile, dDirEqual] (by decide)).1

/-- C6: with content comparison disabled the option object passed to
the comparer carries compareContent false (the user value wins over
the literal true in the spread at comparer.ts line 117), the
spec-modelled classifier never consults the content-equivalence oracle
and classifies every matched pair as equal, and in particular the
scenario index.js versus index.ts with the extension pair js ts and
byte-different contents matches by name and classifies as equal. -/
theorem c6_presence_only (cfg : Configuration)
    (h : cfg.compareContent = false) :
    (concatenatedOptions (getOptions cfg)).compareContent = false ∧
    (∀ oracle1 oracle2 : String → String → Bool, ∀ a b : String,
      classifyMatched cfg.compareContent oracle1 a b =
        classifyMatched cfg.compareContent oracle2 a b) ∧
    (∀ oracle : String → String → Bool, ∀ a b : String,
      classifyMatched cfg.compareContent oracle a b = DiffState.equal) ∧
    nameMatches true [["js", "ts"]] "index.js" "index.ts" = true ∧
    classifyMatched false (fun _ _ => false) "L/index.js" "R/index.ts" =
      DiffState.equal := by
  refine ⟨?_, ?_, ?_, ?_, rfl⟩
  · simp [concatenatedOptions, getOptions, h]
  · intro oracle1 oracle2 a b
    simp [classifyMatched, h]
  · intro oracle a b
    simp [classifyMatched, h]
  · decide

/-- Witness for C6 at a configuration with content comparison off. -/
theorem c6_presence_only_witness :
    (concatenatedOptions (getOptions
      { defaultConfiguration with compareContent := false })).compareContent
        = false ∧
    nameMatches true [["js", "ts"]] "index.js" "index.ts" = true ∧
    classifyMatched false (fun _ _ => false) "L/index.js" "R/index.ts" =
      DiffState.equal :=
  ⟨(c6_presence_only { defaultConfiguration with compareContent := false }
      rfl).1,
   (c6_presence_only { defaultConfiguration with compareContent := false }
      rfl).2.2.2.1,
   (c6_presence_only { defaultConfiguration with compareContent := false }
      rfl).2.2.2.2⟩

/-- C7 counterexample: includeFilter and excludeFilter declare no
default in package.json, so in the default configuration they are
unset, and getOptions passes them to the consumer as undefined (none),
not as an empty sequence. -/
theorem c7_counterexample :
    defaultConfiguration.excludeFilter = none ∧
    defaultConfiguration.includeFilter = none ∧
    (getOptions defaultConfiguration).excludeFilter = none ∧
    (getOptions defaultConfiguration).includeFilter = none ∧
    (getOptions defaultConfiguration).excludeFilter ≠ some "" := by
  refine ⟨rfl, rfl, rfl, rfl, ?_⟩
  decide

/-- C7 amended: getOptions passes an unset array filter through as
undefined rather than substituting an empty sequence, maps a set
filter (even the empty array) to the comma-joined string, and passes
ignoreExtension, whose package.json default is the empty array,
through unchanged. -/
theorem c7_filters_passthrough (c : Configuration) :
    (getOptions c).excludeFilter =
      c.excludeFilter.map (String.intercalate ",") ∧
    (getOptions c).includeFilter =
      c.includeFilter.map (String.intercalate ",") ∧
    (getOptions c).ignoreExtension = c.ignoreExtension ∧
    defaultConfiguration.ignoreExtension = [] :=
  ⟨rfl, rfl, rfl, rfl⟩

end CompareFolders
